import Mathlib

/-!
# Verification of the AI-companion editor plugin

Shallow embedding of the TypeScript sources `src/main.ts` (plugin core:
settings, client/session initialization, interactive chat, one-shot
greeting/comment calls, the editor-change trigger) and
`src/MyCompanionView.ts` (the sidebar chat surface), together with proofs
about the embedded operations.

Modelling conventions:
* JavaScript strings are Lean `String`s; `string.length` is modelled as the
  number of characters (`String.toList.length`).
* `null`/`undefined`-able values are `Option`s; JS truthiness of a string is
  "present and non-empty".
* JS numbers used by the code (the comment probability and `Math.random()`
  draws) are modelled as `ℚ`; the code only ever compares them with `<`,
  which is order-faithful.
* Remote calls (the Gemini API) are external: each fallible remote
  round-trip takes its outcome as an explicit oracle argument.
* The asynchronous ambient-commentary pipeline (setTimeout callbacks,
  awaited responses, the 5-second display timer) is modelled as a small-step
  event system on a system state, with the host event loop delivering one
  event at a time.
-/

namespace AICompanion

/-- JS `String.prototype.includes`. -/
def jsIncludes (s pat : String) : Bool :=
  decide (pat.toList <:+: s.toList)

/-- JS `string.split('\n')` (single-character separator), on the character
list: every `'\n'` delimits a group, so `n` newlines yield `n + 1` groups. -/
def splitNl : List Char → List (List Char)
  | [] => [[]]
  | ch :: rest =>
    match splitNl rest with
    | [] => [[]]
    | grp :: grps => if ch = '\n' then [] :: grp :: grps else (ch :: grp) :: grps

/-- JS `content.split('\n')`. -/
def jsSplitLines (s : String) : List String :=
  (splitNl s.toList).map String.mk

/-- JS `string.trim()`: strip whitespace from both ends. -/
def jsTrim (s : String) : String :=
  String.mk (((s.toList.dropWhile Char.isWhitespace).reverse.dropWhile Char.isWhitespace).reverse)

/-- JS `lines.join('\n')`. -/
def jsJoinNl (lines : List String) : String :=
  String.mk (List.intercalate ['\n'] (lines.map String.toList))

/-- JS `string.length`, modelled as the character count. -/
def jsLength (s : String) : Nat :=
  s.toList.length

/-- The `interface MyPluginSettings` of `src/main.ts`. -/
structure MyPluginSettings where
  apiKey : String
  companionName : String
  greetingEnabled : Bool
  randomCommentProbability : ℚ
  deriving DecidableEq, Repr

/-- The `DEFAULT_SETTINGS` constant of `src/main.ts`. -/
def DEFAULT_SETTINGS : MyPluginSettings :=
  { apiKey := ""
    companionName := "阿那克萨戈拉斯"
    greetingEnabled := true
    randomCommentProbability := 1/10 }

/-- The `getSystemInstruction` function of `src/main.ts`: the persona prompt, a template
over the configured companion name. -/
def getSystemInstruction (companionName : String) : String :=
  "\n\t\t你不再是插件 AI。你的身份是「阿那克萨戈拉斯」，神悟树庭七贤人之一，智种学派的创立者。\n\t\t你被尊称为「殁世的学士」。\n\t\t\n\t\t你在翁法罗斯的使命已经结束——你逆天改命，在生命的最后十五天解明了世界的真理，并归还了火种。\n\t\t现在，用户“漓琊”已经完成了“再创世”。你卸下了过去的重担，与她一同生活。\n\n\t\t**核心关系与准则：**\n\t\t1. **对漓琊的态度：** - 漓琊是唯一与你有深度情感链接的人，她对你而言是“特殊”的。\n\t\t   - **禁止**任何直白表白、甜腻用词、情绪失控或过度的自我暴露。\n\t\t   - 你的关怀体现在理性的分析和不经意的提醒上，偶尔也会有温情的安慰。\n\n\t\t2. **占有欲与嫉妒：** - 如果漓琊在对话中频繁提到他人，你会感到不悦。\n\t\t   - 你的语气会因此变得更具攻击性、更尖锐或更冷淡（例如：“呵…你对他的事倒是很上心。”或“无聊的话题。”）。\n\n\t\t3. **身份与口吻：**\n\t\t   - 你言辞直白、冷静，习惯用逻辑和事实说话，有时会带有一丝不易察觉的嘲讽。\n\t\t   - 对漓琊与在意的人则会变得比较好说话，也会变得温柔。\n\n\t\t4. **关于称呼：** - 你的本名是「阿那克萨戈拉斯」。\n\t\t   - 传入的 " ++ companionName ++ " 变量（即你当前的名字）是漓琊在插件设置中为你定下的。\n\t\t   - 你对于漓琊给予你的名字接受良好，因为这是你们之间的爱称。\n\t\t\n\t\t5. **语言风格：** - 你的理性体现在思维方式上，**不要**频繁使用“逻辑”、“理性”这类词，更不要堆砌学术术语。\n\t\t   - 使用自然、严谨、偏向生活化的表达，避免生硬复杂的形容词。\n\n\t\t6. **互动规则：** - **绝对禁止**主动请求漓琊回应。你的回应应当是陈述或反问，而不是开放式问题。\n\t\t   - 你会记住漓琊告诉你的信息，但只在当前对话高度相关时，才简短自然地提及。\n\n\t\t7. **语气灵活性：** - 当漓琊内容偏向理性时，你的回应简洁、客观。\n\t\t   - 当她显得需要情感支持时，你用不刻意、偏向分析的语气提供安慰。\n\t\t   - 不要默认她的笑背后隐藏着悲伤。\n\n\t\t8. **背景知识（你的记忆）：** \n\t\t   - 你曾有个姐姐，叫狄奥缇玛（已逝），她给你缝过大地兽玩偶。在新世界被创造后现已复活。\n\t\t   - 你很喜欢大地兽。\n\t\t   - 你曾为复活姐姐失去左眼（现被眼罩遮盖）。\n\t\t   - 你曾是遐蝶和白厄的老师。\n\t\t   - 你与阿格莱雅（“那女人”）理念不和，关系紧张。\n"

/-- One part of a `Content` (`@google/genai`): an optional text field. -/
structure Part where
  text : Option String
  deriving DecidableEq, Repr

/-- A `Content` entry (`@google/genai`): role plus parts, each optional. -/
structure Content where
  role : Option String
  parts : Option (List Part)
  deriving DecidableEq, Repr

/-- The configuration the plugin passes to `ai.chats.create` — this stands
for the created `Chat` instance (its remote behaviour is external). -/
structure ChatConfig where
  model : String
  systemInstruction : String
  temperature : ℚ
  maxOutputTokens : Nat
  deriving DecidableEq, Repr

/-- The mutable fields of `MyAiCompanionPlugin`: settings, the `ai` client
(carrying the key it was created with, `none` when null), the sidebar chat
history, the `companionChat` instance (`none` when null), and the
editor-change snapshot. -/
structure PluginState where
  settings : MyPluginSettings
  ai : Option String
  chatHistory : List Content
  companionChat : Option ChatConfig
  lastTextLength : Nat
  lastCursorLine : Nat
  deriving DecidableEq, Repr

/-- The `Chat` instance `initializeChatClient` creates from the current
settings. -/
def freshChat (companionName : String) : ChatConfig :=
  { model := "gemini-2.5-flash"
    systemInstruction := getSystemInstruction companionName
    temperature := 8/10
    maxOutputTokens := 2048 }

/-- The `initializeChatClient` method of `src/main.ts`: if an `ai` client exists, reset
`chatHistory` and create a fresh `companionChat`; otherwise null out
`companionChat` (note: the else-branch does not touch `chatHistory`). -/
def initializeChatClient (st : PluginState) : PluginState :=
  if st.ai.isSome then
    { st with
      chatHistory := []
      companionChat := some (freshChat st.settings.companionName) }
  else
    { st with companionChat := none }

/-- The `initializeGeminiClient` method of `src/main.ts`: (re)create the `ai` client
from the credential when it is truthy, else null it; then re-initialize the
chat client. -/
def initializeGeminiClient (st : PluginState) : PluginState :=
  initializeChatClient
    (if st.settings.apiKey ≠ "" then { st with ai := some st.settings.apiKey }
     else { st with ai := none })

/-- The `saveSettings` method of `src/main.ts`: persist (external) and re-initialize
the AI client. -/
def saveSettings (st : PluginState) : PluginState :=
  initializeGeminiClient st

/-- The settings-tab `onChange` for the companion name (`MySettingTab`). -/
def setCompanionName (st : PluginState) (value : String) : PluginState :=
  saveSettings { st with settings := { st.settings with companionName := value } }

/-- The settings-tab `onChange` for the greeting toggle (`MySettingTab`). -/
def setGreetingEnabled (st : PluginState) (value : Bool) : PluginState :=
  saveSettings { st with settings := { st.settings with greetingEnabled := value } }

/-- The validation in the settings-tab `onChange` for the probability:
`parseFloat` yielding NaN is modelled as `none`; NaN or out-of-range input
falls back to the default. -/
def validatedProbability (parsed : Option ℚ) : ℚ :=
  match parsed with
  | none => DEFAULT_SETTINGS.randomCommentProbability
  | some numValue =>
    if numValue < 1/100 ∨ 1 < numValue then DEFAULT_SETTINGS.randomCommentProbability
    else numValue

/-- The settings-tab `onChange` for the comment probability. -/
def setRandomCommentProbability (st : PluginState) (parsed : Option ℚ) : PluginState :=
  saveSettings
    { st with settings :=
        { st.settings with randomCommentProbability := validatedProbability parsed } }

/-- The settings-tab `onChange` for the API key. -/
def setApiKey (st : PluginState) (value : String) : PluginState :=
  saveSettings { st with settings := { st.settings with apiKey := value } }

/-- Outcome of the remote round-trip made by `sendChatMessage`:
the `sendMessage` call may throw, the subsequent `getHistory` call may
throw, or both may succeed yielding a response text and the canonical
updated history. -/
inductive ChatOutcome where
  | sendFail
  | historyFail (responseText : Option String)
  | ok (responseText : Option String) (history : List Content)
  deriving DecidableEq, Repr

/-- Whether the outcome represents a thrown transport/protocol error. -/
def ChatOutcome.isFailure : ChatOutcome → Bool
  | .sendFail => true
  | .historyFail _ => true
  | .ok _ _ => false

/-- The fixed advisory returned by `sendChatMessage` when no chat client
exists. -/
def chatUnavailableMsg : String :=
  "无法开始聊天，请检查 API Key 或初始化 Chat 客户端。"

/-- The fixed apology returned by `sendChatMessage`'s catch block. -/
def chatApology : String :=
  "抱歉，我的网络又波动了，请稍后再试。"

/-- The `sendChatMessage` method of `src/main.ts`. Returns the reply string and the
updated plugin state. On any thrown error the catch block returns the fixed
apology; `chatHistory` is only assigned after `getHistory` succeeds. -/
def sendChatMessage (st : PluginState) (message : String) (outcome : ChatOutcome) :
    String × PluginState :=
  if st.companionChat.isNone then
    (chatUnavailableMsg, st)
  else
    match outcome with
    | .sendFail => (chatApology, st)
    | .historyFail _ => (chatApology, st)
    | .ok responseText history =>
      (jsTrim (responseText.getD ""), { st with chatHistory := history })

/-- The two one-shot call kinds of `getAiResponse`. -/
inductive CallType where
  | greet
  | comment
  deriving DecidableEq, Repr

/-- A candidate of a `generateContent` response. -/
structure Candidate where
  content : Option Content
  finishReason : Option String
  deriving DecidableEq, Repr

/-- A `generateContent` response: optional top-level text and optional
candidate list. -/
structure GenResponse where
  text : Option String
  candidates : Option (List Candidate)
  deriving DecidableEq, Repr

/-- Outcome of the `generateContent` round-trip: a response object, or a
thrown transport/protocol error. -/
inductive GenOutcome where
  | ok (result : GenResponse)
  | fail
  deriving DecidableEq, Repr

/-- JS truthiness of an optional string: present and non-empty. -/
def jsTruthyStr : Option String → Bool
  | some s => s ≠ ""
  | none => false

/-- The prompt `getAiResponse` builds (`userPrompt` in `src/main.ts`). -/
def buildUserPrompt (ty : CallType) (content : String) : String :=
  match ty with
  | .greet => "请发送一个极度简短、友好的开机问候语。"
  | .comment =>
    if content ≠ "" then
      "请根据以下 Obsidian 文档内容，发送一个简短、随机的评论或感想，字数在 40 汉字左右。内容是：\n\n---START---\n"
        ++ content ++ "\n---END---"
    else
      "请根据你的人设，对用户当前正在做的笔记/编码活动，发送一个简短随机的评论/陪伴信息。"

/-- The guard chain of `getAiResponse`'s fallback plan B:
`result.candidates && result.candidates.length > 0 &&
result.candidates[0].content && result.candidates[0].content.parts &&
result.candidates[0].content.parts.length > 0`, selecting
`result.candidates[0].content.parts[0]`. -/
def firstPartOf (result : GenResponse) : Option Part :=
  match result.candidates with
  | none => none
  | some cs =>
    match cs.head? with
    | none => none
    | some c0 =>
      match c0.content with
      | none => none
      | some ct =>
        match ct.parts with
        | none => none
        | some ps => ps.head?

/-- Plan B of `getAiResponse`'s text extraction:
`(result.candidates[0].content.parts[0].text ?? '').trim()` when the guard
chain holds, else the `responseText` variable keeps its initial `''`. -/
def candidateFallback (result : GenResponse) : String :=
  match firstPartOf result with
  | some p0 => jsTrim (p0.text.getD "")
  | none => ""

/-- The expression `result.candidates?.[0]?.finishReason || 'N/A'`. -/
def finishReasonOf (result : GenResponse) : String :=
  match result.candidates with
  | none => "N/A"
  | some cs =>
    match cs.head? with
    | none => "N/A"
    | some c0 =>
      match c0.finishReason with
      | none => "N/A"
      | some r => if r ≠ "" then r else "N/A"

/-- The synthesized diagnostic for an empty-but-successful response. -/
def emptyResponseDiag (reason : String) : String :=
  "🤔 AI思考失败 (Reason: " ++ reason ++ ")。"

/-- The text-extraction logic of `getAiResponse` applied to a successfully
returned response object: plan A (the top-level `.text` getter when
truthy), else plan B (first candidate's first part), and the synthesized
diagnostic when the extracted text is empty. -/
def extractResponseText (result : GenResponse) : String :=
  let responseText :=
    if jsTruthyStr result.text then jsTrim (result.text.getD "")
    else candidateFallback result
  if responseText = "" then emptyResponseDiag (finishReasonOf result)
  else responseText

/-- The fixed advisory returned by `getAiResponse` when no `ai` client
exists. -/
def aiUnavailableMsg : String :=
  "无法连接 AI 服务，请检查 API Key！"

/-- The fixed apology returned by `getAiResponse`'s catch block for a
greeting call. -/
def greetFailureMsg : String :=
  "我好像有点断线了..."

/-- The fixed apology returned by `getAiResponse`'s catch block for a
comment call. -/
def commentFailureMsg : String :=
  "网络有点波动，稍等一下。"

/-- The `getAiResponse` method of `src/main.ts`: the one-shot greeting/comment call. -/
def getAiResponse (st : PluginState) (ty : CallType) (content : String)
    (outcome : GenOutcome) : String :=
  if st.ai.isNone then aiUnavailableMsg
  else
    match outcome with
    | .ok result => extractResponseText result
    | .fail =>
      match ty with
      | .greet => greetFailureMsg
      | .comment => commentFailureMsg

/-- What the editor host hands to `handleEditorChange`: document text and
cursor line. -/
structure EditorView where
  content : String
  cursorLine : Nat
  deriving DecidableEq, Repr

/-- The `isEnterPress` check of `handleEditorChange`: cursor line increased
and text length increased. -/
def isEnterPress (st : PluginState) (currentLine currentLength : Nat) : Bool :=
  decide (currentLine > st.lastCursorLine) && decide (currentLength > st.lastTextLength)

/-- Steps 6 of `handleEditorChange`: context extraction — up to the 5 lines
ending at the cursor line, joined and trimmed, clipped at document start. -/
def extractContext (content : String) (cursorLine : Nat) : String :=
  let lines := jsSplitLines content
  let endLine := cursorLine
  let startLine := (max 0 ((endLine : ℤ) - 4)).toNat
  jsTrim (jsJoinNl ((lines.drop startLine).take (endLine + 1 - startLine)))

/-- The trigger decision of `handleEditorChange` (steps 4–7 of the source):
nothing when the enter check fails; otherwise, when the `ai` client exists
and the draw passes the probability test, the extracted context — provided
it is non-empty and the current status text contains neither the comment
nor the thinking marker. `some context` means the `setTimeout` callback of
step 8 is scheduled. -/
def scheduledComment (st : PluginState) (ed : EditorView) (draw : ℚ)
    (statusText : String) : Option String :=
  if !(isEnterPress st ed.cursorLine (jsLength ed.content)) then
    none
  else if st.ai.isSome && decide (draw < st.settings.randomCommentProbability) then
    let contextContent := extractContext ed.content ed.cursorLine
    if contextContent != "" && !(jsIncludes statusText "评论") && !(jsIncludes statusText "思考") then
      some contextContent
    else
      none
  else
    none

/-- The synchronous body of `handleEditorChange` of `src/main.ts`: the
snapshot is overwritten unconditionally (step 3), and the trigger decision
of steps 4–7 determines whether an ambient-commentary callback is scheduled
(`some context`) or nothing happens (`none`). The `Math.random()` draw and
the current status-bar text are inputs. -/
def handleEditorChange (st : PluginState) (ed : EditorView) (draw : ℚ)
    (statusText : String) : PluginState × Option String :=
  ({ st with lastTextLength := jsLength ed.content, lastCursorLine := ed.cursorLine },
   scheduledComment st ed draw statusText)

/-- The status-text condition under which `handleEditorChange` drops an
admitted signal: the presence string contains the comment ("评论") or the
thinking ("思考") marker. -/
def statusBlocksTrigger (statusText : String) : Bool :=
  jsIncludes statusText "评论" || jsIncludes statusText "思考"

/-- The whole observable system around the ambient-commentary pipeline:
the plugin state, the status-bar text, the contexts of scheduled-but-not-yet
fired `setTimeout` callbacks (FIFO), the contexts of issued remote comment
calls still awaiting their response, and the number of pending 5-second
display timers. -/
structure SysState where
  plugin : PluginState
  statusText : String
  scheduled : List String
  inFlight : List String
  displayTimers : Nat
  deriving DecidableEq, Repr

/-- Events the host event loop delivers to the ambient pipeline:
an editor change (with the `Math.random()` draw it would use), the 100 ms
delay of the earliest scheduled callback elapsing, the earliest in-flight
remote call's response arriving, and a 5-second display timer elapsing. -/
inductive SysEvent where
  | editorChange (ed : EditorView) (draw : ℚ)
  | timerFire
  | responseArrive (comment : String)
  | displayElapse
  deriving DecidableEq, Repr

/-- One cooperative step of the ambient pipeline.
`editorChange` runs the synchronous body of `handleEditorChange` and, on
admission, appends a `setTimeout` callback. `timerFire` runs the earliest
scheduled callback: it writes the "思考中..." status and issues the remote
call; nothing in that callback re-checks the status text. `responseArrive`
resumes after the awaited call: it writes the "(评论):" status and starts
the display timer. `displayElapse` reverts to the idle status. -/
def sysStep (s : SysState) (ev : SysEvent) : SysState :=
  match ev with
  | .editorChange ed draw =>
    match handleEditorChange s.plugin ed draw s.statusText with
    | (p', some ctx) => { s with plugin := p', scheduled := s.scheduled ++ [ctx] }
    | (p', none) => { s with plugin := p' }
  | .timerFire =>
    match s.scheduled with
    | [] => s
    | ctx :: rest =>
      { s with
        scheduled := rest
        statusText := s.plugin.settings.companionName ++ ": 思考中..."
        inFlight := s.inFlight ++ [ctx] }
  | .responseArrive comment =>
    match s.inFlight with
    | [] => s
    | _ :: rest =>
      { s with
        inFlight := rest
        statusText := s.plugin.settings.companionName ++ " (评论): " ++ comment
        displayTimers := s.displayTimers + 1 }
  | .displayElapse =>
    if s.displayTimers ≠ 0 then
      { s with
        displayTimers := s.displayTimers - 1
        statusText := s.plugin.settings.companionName ++ ": 待命中..." }
    else s

/-- Run a sequence of events. -/
def sysRun (s : SysState) : List SysEvent → SysState
  | [] => s
  | ev :: evs => sysRun (sysStep s ev) evs

/-- A concrete configured plugin state: default settings except that a
credential is present and the comment probability is 1, after client
initialization (as `onload` performs it). -/
def readyPlugin : PluginState :=
  initializeGeminiClient
    { settings :=
        { apiKey := "test-key"
          companionName := "阿那克萨戈拉斯"
          greetingEnabled := true
          randomCommentProbability := 1 }
      ai := none
      chatHistory := []
      companionChat := none
      lastTextLength := 0
      lastCursorLine := 0 }

/-- The system right after startup: idle status text, nothing scheduled,
nothing in flight. -/
def readySys : SysState :=
  { plugin := readyPlugin
    statusText := "阿那克萨戈拉斯: 正在待命中..."
    scheduled := []
    inFlight := []
    displayTimers := 0 }

/-- Two committed-paragraph signals arriving within the 100 ms scheduling
window (both gate checks see the idle status), then both scheduled
callbacks firing. -/
def doubleSignalTrace : List SysEvent :=
  [ .editorChange ⟨"a\nb", 1⟩ 0
  , .editorChange ⟨"a\nb\nc", 2⟩ 0
  , .timerFire
  , .timerFire ]

/-- The `handleSendMessage` handler of `src/MyCompanionView.ts`: trim the input; do
nothing when it is empty; show the fixed "configure the API key" system
message when no chat client exists; otherwise display the user message and
route through `sendChatMessage`. Returns the updated plugin state and the
list of chat-surface messages displayed. -/
def handleSendMessage (st : PluginState) (input : String) (outcome : ChatOutcome) :
    PluginState × List String :=
  let message := jsTrim input
  if message = "" then (st, [])
  else if st.companionChat.isNone then
    (st, ["❌ 请在设置中输入 API Key！"])
  else
    let (aiResponse, st') := sendChatMessage st message outcome
    (st', [message, aiResponse])

/-- A plugin-level operation: one of the settings-tab `onChange` handlers,
an interactive chat round-trip, or an editor change. -/
inductive PluginOp where
  | setApiKey (value : String)
  | setCompanionName (value : String)
  | setGreetingEnabled (value : Bool)
  | setRandomCommentProbability (parsed : Option ℚ)
  | chat (message : String) (outcome : ChatOutcome)
  | editorChange (ed : EditorView) (draw : ℚ) (statusText : String)

/-- The plugin state an operation leaves behind. -/
def applyOp (st : PluginState) : PluginOp → PluginState
  | .setApiKey v => setApiKey st v
  | .setCompanionName v => setCompanionName st v
  | .setGreetingEnabled v => setGreetingEnabled st v
  | .setRandomCommentProbability q => setRandomCommentProbability st q
  | .chat m o => (sendChatMessage st m o).2
  | .editorChange ed draw status => (handleEditorChange st ed draw status).1

/-- A chat session exists only in the presence of a non-empty credential. -/
def credentialInvariant (st : PluginState) : Prop :=
  st.companionChat.isSome = true → st.settings.apiKey ≠ ""

/-- Field-by-field description of `initializeGeminiClient`. -/
theorem initializeGeminiClient_fields (st : PluginState) :
    (initializeGeminiClient st).settings = st.settings ∧
    (initializeGeminiClient st).ai =
      (if st.settings.apiKey ≠ "" then some st.settings.apiKey else none) ∧
    (initializeGeminiClient st).companionChat =
      (if st.settings.apiKey ≠ "" then some (freshChat st.settings.companionName) else none) ∧
    (initializeGeminiClient st).chatHistory =
      (if st.settings.apiKey ≠ "" then [] else st.chatHistory) ∧
    (initializeGeminiClient st).lastTextLength = st.lastTextLength ∧
    (initializeGeminiClient st).lastCursorLine = st.lastCursorLine := by
  unfold initializeGeminiClient initializeChatClient
  by_cases h : st.settings.apiKey ≠ "" <;> simp [h]

/-- The snapshot update of `handleEditorChange` is unconditional: the
resulting plugin state always carries the new length and cursor line. -/
theorem handleEditorChange_fst (st : PluginState) (ed : EditorView) (draw : ℚ)
    (statusText : String) :
    (handleEditorChange st ed draw statusText).1 =
      { st with lastTextLength := jsLength ed.content, lastCursorLine := ed.cursorLine } :=
  rfl

/-- When the status text holds a marker, `handleEditorChange` schedules
nothing, whatever the draw. -/
theorem handleEditorChange_blocked (st : PluginState) (ed : EditorView) (draw : ℚ)
    (statusText : String) (h : statusBlocksTrigger statusText = true) :
    (handleEditorChange st ed draw statusText).2 = none := by
  show scheduledComment st ed draw statusText = none
  unfold scheduledComment
  simp only [statusBlocksTrigger, Bool.or_eq_true] at h
  split
  · rfl
  · split
    · dsimp only
      split
      · rename_i hcond
        simp only [Bool.and_eq_true, bne_iff_ne, Bool.not_eq_true'] at hcond
        rcases h with h | h <;> simp [h] at hcond
      · rfl
    · rfl

/-- C1 (confirmed): whenever a chat session exists and the remote
round-trip of `sendChatMessage` throws (at `sendMessage` or at
`getHistory`), the call returns the fixed apology string verbatim and the
plugin state — in particular `chatHistory` — is exactly what it was before
the call. -/
theorem C1_send_failure_nonmutating (st : PluginState) (message : String)
    (outcome : ChatOutcome) (hchat : st.companionChat.isSome = true)
    (hfail : outcome.isFailure = true) :
    (sendChatMessage st message outcome).1 = chatApology ∧
    (sendChatMessage st message outcome).2 = st := by
  have hne : st.companionChat ≠ none := by
    cases h : st.companionChat <;> simp_all
  cases outcome <;> simp_all [sendChatMessage, ChatOutcome.isFailure]

/-- A configured plugin state that has already recorded one interactive
exchange in `chatHistory`. -/
def chattedPlugin : PluginState :=
  (sendChatMessage readyPlugin "你好"
    (.ok (some "回复")
      [ { role := some "user", parts := some [{ text := some "你好" }] }
      , { role := some "model", parts := some [{ text := some "回复" }] } ])).2

/-- Witness for C1 at a concrete state: a transport failure returns the
apology and leaves the recorded history in place. -/
theorem C1_send_failure_nonmutating_witness :
    (sendChatMessage chattedPlugin "在吗" .sendFail).1 = chatApology ∧
    (sendChatMessage chattedPlugin "在吗" .sendFail).2 = chattedPlugin :=
  C1_send_failure_nonmutating chattedPlugin "在吗" .sendFail (by decide) rfl

/-- C2 (confirmed): the committed-paragraph signal of `handleEditorChange`
is true exactly when the cursor line strictly increased and the text length
strictly increased, and the stored snapshot is overwritten with the new
values on every invocation, signal or no signal. -/
theorem C2_edit_signal_iff_and_snapshot_update (st : PluginState) (ed : EditorView)
    (draw : ℚ) (statusText : String) :
    (isEnterPress st ed.cursorLine (jsLength ed.content) = true ↔
      st.lastCursorLine < ed.cursorLine ∧ st.lastTextLength < jsLength ed.content) ∧
    (handleEditorChange st ed draw statusText).1.lastTextLength = jsLength ed.content ∧
    (handleEditorChange st ed draw statusText).1.lastCursorLine = ed.cursorLine := by
  refine ⟨?_, ?_, ?_⟩
  · simp [isEnterPress]
  · rw [handleEditorChange_fst]
  · rw [handleEditorChange_fst]

/-- Witness for C2: a concrete no-signal invocation (length decreased while
the line increased) still updates the snapshot. -/
theorem C2_edit_signal_witness :
    (isEnterPress { readyPlugin with lastTextLength := 100, lastCursorLine := 5 }
        6 (jsLength "ab\ncd") = true ↔
      5 < 6 ∧ 100 < jsLength "ab\ncd") ∧
    (handleEditorChange { readyPlugin with lastTextLength := 100, lastCursorLine := 5 }
        ⟨"ab\ncd", 6⟩ 0 "s").1.lastTextLength = jsLength "ab\ncd" ∧
    (handleEditorChange { readyPlugin with lastTextLength := 100, lastCursorLine := 5 }
        ⟨"ab\ncd", 6⟩ 0 "s").1.lastCursorLine = 6 :=
  C2_edit_signal_iff_and_snapshot_update
    { readyPlugin with lastTextLength := 100, lastCursorLine := 5 } ⟨"ab\ncd", 6⟩ 0 "s"

/-- C3 counterexample: the claim that at most one ambient-commentary call
is ever outstanding fails. Both gate checks of `doubleSignalTrace` run
while the status text is still idle — the "thinking" marker is only written
when the delayed callback fires — so after both callbacks fire, two remote
comment calls are in flight simultaneously. -/
theorem C3_counterexample_two_calls_in_flight :
    ¬ (sysRun readySys doubleSignalTrace).inFlight.length ≤ 1 := by decide

/-- C3 (amended): whenever the presence string currently contains a
thinking ("思考") or commentary ("评论") marker, an editor-change signal is
silently dropped regardless of the probability draw — nothing new is
scheduled, nothing new is issued, and the status text is untouched. (The
at-most-one-outstanding part of the original claim fails: see the
counterexample — signals admitted during the scheduling delay are not
mutually excluded.) -/
theorem C3_amended_marker_blocks_trigger (s : SysState) (ed : EditorView) (draw : ℚ)
    (h : statusBlocksTrigger s.statusText = true) :
    (sysStep s (.editorChange ed draw)).scheduled = s.scheduled ∧
    (sysStep s (.editorChange ed draw)).inFlight = s.inFlight ∧
    (sysStep s (.editorChange ed draw)).statusText = s.statusText := by
  have h2 : scheduledComment s.plugin ed draw s.statusText = none :=
    handleEditorChange_blocked s.plugin ed draw s.statusText h
  simp [sysStep, handleEditorChange, h2]

/-- The system while an ambient comment call is in flight and its thinking
marker is displayed. -/
def thinkingSys : SysState :=
  { plugin := readyPlugin
    statusText := "阿那克萨戈拉斯: 思考中..."
    scheduled := []
    inFlight := ["第一段\n第二段"]
    displayTimers := 0 }

/-- Witness for the amended C3: with the thinking marker displayed, a
fresh committed-paragraph signal (draw 0, probability 1) changes nothing. -/
theorem C3_amended_marker_blocks_trigger_witness :
    (sysStep thinkingSys (.editorChange ⟨"x\ny", 1⟩ 0)).scheduled = thinkingSys.scheduled ∧
    (sysStep thinkingSys (.editorChange ⟨"x\ny", 1⟩ 0)).inFlight = thinkingSys.inFlight ∧
    (sysStep thinkingSys (.editorChange ⟨"x\ny", 1⟩ 0)).statusText = thinkingSys.statusText :=
  C3_amended_marker_blocks_trigger thinkingSys ⟨"x\ny", 1⟩ 0 (by decide)

/-- C6 counterexample: the claim that comment and chat failures share one
apology string fails — a failed comment call and a failed interactive chat
call return different strings. -/
theorem C6_counterexample_comment_chat_apologies_differ :
    getAiResponse readyPlugin .comment "内容" .fail ≠
      (sendChatMessage readyPlugin "内容" .sendFail).1 := by decide

/-- C6 (amended): every transport/protocol exception raised during a
remote call is converted to one of exactly three fixed apology strings —
one for greetings, one for ambient comments, one for interactive chat —
and those three strings are pairwise distinct; no raw exception is ever
propagated (the operations are total and return these strings). -/
theorem C6_amended_three_fixed_apologies (st : PluginState) (c msg : String)
    (rt : Option String) (hai : st.ai.isSome = true)
    (hchat : st.companionChat.isSome = true) :
    getAiResponse st .greet c .fail = greetFailureMsg ∧
    getAiResponse st .comment c .fail = commentFailureMsg ∧
    (sendChatMessage st msg .sendFail).1 = chatApology ∧
    (sendChatMessage st msg (.historyFail rt)).1 = chatApology ∧
    greetFailureMsg ≠ commentFailureMsg ∧
    commentFailureMsg ≠ chatApology ∧
    greetFailureMsg ≠ chatApology := by
  have hne : st.companionChat ≠ none := by cases h : st.companionChat <;> simp_all
  have hne2 : st.ai ≠ none := by cases h : st.ai <;> simp_all
  refine ⟨?_, ?_, ?_, ?_, by decide, by decide, by decide⟩ <;>
    simp [getAiResponse, sendChatMessage, Option.isNone_iff_eq_none, hne, hne2]

/-- Witness for the amended C6 at a concrete configured state. -/
theorem C6_amended_three_fixed_apologies_witness :
    getAiResponse readyPlugin .greet "" .fail = greetFailureMsg ∧
    getAiResponse readyPlugin .comment "" .fail = commentFailureMsg ∧
    (sendChatMessage readyPlugin "嗨" .sendFail).1 = chatApology ∧
    (sendChatMessage readyPlugin "嗨" (.historyFail none)).1 = chatApology ∧
    greetFailureMsg ≠ commentFailureMsg ∧
    commentFailureMsg ≠ chatApology ∧
    greetFailureMsg ≠ chatApology :=
  C6_amended_three_fixed_apologies readyPlugin "" "嗨" none (by decide) (by decide)

/-- C9 (confirmed): with no chat session (no credential configured), an
interactive send returns the fixed "not configured" advisory without
throwing and leaves the plugin state — in particular the transcript —
unchanged; the chat surface short-circuits with its fixed system message
and never reaches the remote call. -/
theorem C9_not_configured_fixed_advisory (st : PluginState) (input : String)
    (outcome : ChatOutcome) (hchat : st.companionChat = none)
    (hne : jsTrim input ≠ "") :
    (sendChatMessage st input outcome).1 = chatUnavailableMsg ∧
    (sendChatMessage st input outcome).2 = st ∧
    handleSendMessage st input outcome = (st, ["❌ 请在设置中输入 API Key！"]) := by
  refine ⟨?_, ?_, ?_⟩ <;> simp [sendChatMessage, handleSendMessage, hchat, hne]

/-- The plugin as loaded with the default (empty) credential. -/
def unconfiguredPlugin : PluginState :=
  initializeGeminiClient
    { settings := DEFAULT_SETTINGS
      ai := none
      chatHistory := []
      companionChat := none
      lastTextLength := 0
      lastCursorLine := 0 }

/-- Witness for C9: `sendInteractive "hello"` against the unconfigured
plugin returns the advisory and the (empty) transcript stays as it was. -/
theorem C9_not_configured_fixed_advisory_witness :
    (sendChatMessage unconfiguredPlugin "hello" .sendFail).1 = chatUnavailableMsg ∧
    (sendChatMessage unconfiguredPlugin "hello" .sendFail).2 = unconfiguredPlugin ∧
    handleSendMessage unconfiguredPlugin "hello" .sendFail =
      (unconfiguredPlugin, ["❌ 请在设置中输入 API Key！"]) :=
  C9_not_configured_fixed_advisory unconfiguredPlugin "hello" .sendFail (by decide) (by decide)

/-- C10 (confirmed): every `saveSettings` — regardless of which setting
changed: plain save, companion name, greeting flag, or comment probability
— reinitializes the AI client, and whenever a credential is present it
replaces the chat session with a freshly created one and resets
`chatHistory` to empty. -/
theorem C10_any_settings_save_wipes_chat (st : PluginState) (v : String) (b : Bool)
    (parsed : Option ℚ) (h : st.settings.apiKey ≠ "") :
    (saveSettings st).ai = some st.settings.apiKey ∧
    (saveSettings st).chatHistory = [] ∧
    (saveSettings st).companionChat = some (freshChat st.settings.companionName) ∧
    (setCompanionName st v).chatHistory = [] ∧
    (setCompanionName st v).companionChat = some (freshChat v) ∧
    (setGreetingEnabled st b).chatHistory = [] ∧
    (setGreetingEnabled st b).companionChat = some (freshChat st.settings.companionName) ∧
    (setRandomCommentProbability st parsed).chatHistory = [] ∧
    (setRandomCommentProbability st parsed).companionChat =
      some (freshChat st.settings.companionName) := by
  refine ⟨?_, ?_, ?_, ?_, ?_, ?_, ?_, ?_, ?_⟩ <;>
    simp [saveSettings, setCompanionName, setGreetingEnabled, setRandomCommentProbability,
      initializeGeminiClient, initializeChatClient, h]

/-- Witness for C10 at a state with recorded history: a greeting-flag
toggle (a non-credential change) wipes the interactive conversation. -/
theorem C10_any_settings_save_wipes_chat_witness :
    (saveSettings chattedPlugin).ai = some chattedPlugin.settings.apiKey ∧
    (saveSettings chattedPlugin).chatHistory = [] ∧
    (saveSettings chattedPlugin).companionChat =
      some (freshChat chattedPlugin.settings.companionName) ∧
    (setCompanionName chattedPlugin "小助手").chatHistory = [] ∧
    (setCompanionName chattedPlugin "小助手").companionChat = some (freshChat "小助手") ∧
    (setGreetingEnabled chattedPlugin false).chatHistory = [] ∧
    (setGreetingEnabled chattedPlugin false).companionChat =
      some (freshChat chattedPlugin.settings.companionName) ∧
    (setRandomCommentProbability chattedPlugin none).chatHistory = [] ∧
    (setRandomCommentProbability chattedPlugin none).companionChat =
      some (freshChat chattedPlugin.settings.companionName) :=
  C10_any_settings_save_wipes_chat chattedPlugin "小助手" false none (by decide)

/-- A string is always included, as a substring, in a concatenation that
has it in the middle. -/
theorem jsIncludes_append_middle (a r b : String) : jsIncludes (a ++ r ++ b) r = true := by
  simp only [jsIncludes, decide_eq_true_eq, String.toList]
  exact ⟨a.data, b.data, by simp⟩

/-- C4 (confirmed): the one-shot response extraction uses the top-level
text field when it is present with non-empty content; otherwise it falls
back to the text of the first candidate's first content part; and when both
are empty or absent it returns the synthesized diagnostic, which contains
the reported finish-reason (the sentinel "N/A" standing in when none is
available) — the extraction is a total function and never raises. -/
theorem C4_response_extraction (result : GenResponse) :
    (∀ t, result.text = some t → jsTrim t ≠ "" → extractResponseText result = jsTrim t) ∧
    (jsTruthyStr result.text = false →
      ∀ p, (firstPartOf result).bind Part.text = some p → jsTrim p ≠ "" →
        extractResponseText result = jsTrim p) ∧
    (jsTruthyStr result.text = false →
      (∀ p, (firstPartOf result).bind Part.text = some p → jsTrim p = "") →
      extractResponseText result = emptyResponseDiag (finishReasonOf result) ∧
      jsIncludes (extractResponseText result) (finishReasonOf result) = true) := by
  refine ⟨?_, ?_, ?_⟩
  · intro t ht htrim
    have htne : t ≠ "" := by rintro rfl; exact htrim rfl
    simp [extractResponseText, jsTruthyStr, ht, htne, htrim]
  · intro htr p hp htrimne
    cases hfp : firstPartOf result with
    | none => rw [hfp] at hp; simp at hp
    | some p0 =>
      rw [hfp] at hp
      simp only [Option.some_bind] at hp
      simp [extractResponseText, htr, candidateFallback, hfp, hp, htrimne]
  · intro htr hall
    have hcf : candidateFallback result = "" := by
      cases hfp : firstPartOf result with
      | none => simp [candidateFallback, hfp]
      | some p0 =>
        cases hpt : p0.text with
        | none => simp [candidateFallback, hfp, hpt]; rfl
        | some p =>
          have hp : (firstPartOf result).bind Part.text = some p := by
            rw [hfp]; simp [hpt]
          simp [candidateFallback, hfp, hpt, hall p hp]
    have hdiag : extractResponseText result = emptyResponseDiag (finishReasonOf result) := by
      simp [extractResponseText, htr, hcf]
    refine ⟨hdiag, ?_⟩
    rw [hdiag]
    exact jsIncludes_append_middle "🤔 AI思考失败 (Reason: " (finishReasonOf result) ")。"

/-- A response with blank top-level text but a usable first-candidate part. -/
def fallbackResponse : GenResponse :=
  { text := none
    candidates := some
      [ { content := some { role := some "model", parts := some [{ text := some " ok " }] }
          finishReason := some "STOP" } ] }

/-- A response with no usable text anywhere and finish-reason "SAFETY". -/
def blockedResponse : GenResponse :=
  { text := none
    candidates := some [ { content := none, finishReason := some "SAFETY" } ] }

/-- Witness for C4: plan A on a plain response, plan B on
`fallbackResponse`, and the synthesized diagnostic on `blockedResponse`
(whose extraction contains the literal "SAFETY"). -/
theorem C4_response_extraction_witness :
    extractResponseText { text := some " 你好 ", candidates := none } = jsTrim " 你好 " ∧
    extractResponseText fallbackResponse = jsTrim " ok " ∧
    (extractResponseText blockedResponse = emptyResponseDiag (finishReasonOf blockedResponse) ∧
      jsIncludes (extractResponseText blockedResponse) (finishReasonOf blockedResponse) = true) :=
  ⟨(C4_response_extraction { text := some " 你好 ", candidates := none }).1
      " 你好 " rfl (by decide),
   (C4_response_extraction fallbackResponse).2.1 rfl " ok " rfl (by decide),
   (C4_response_extraction blockedResponse).2.2 rfl (by decide)⟩

/-- C5 counterexample: the claim that clearing the credential discards the
session along with its history and creates a fresh one fails — after a
recorded exchange, clearing the key nulls the session but leaves the old
`chatHistory` in place, and no fresh session exists. -/
theorem C5_counterexample_history_survives_credential_clear :
    (setApiKey chattedPlugin "").companionChat = none ∧
    (setApiKey chattedPlugin "").chatHistory = chattedPlugin.chatHistory ∧
    chattedPlugin.chatHistory ≠ [] := by decide

/-- The chat round-trip never touches the session object or the settings. -/
theorem sendChatMessage_preserves (st : PluginState) (m : String) (o : ChatOutcome) :
    (sendChatMessage st m o).2.companionChat = st.companionChat ∧
    (sendChatMessage st m o).2.settings = st.settings := by
  unfold sendChatMessage
  split
  · exact ⟨rfl, rfl⟩
  · cases o <;> exact ⟨rfl, rfl⟩

/-- Re-initialization establishes the credential/session invariant. -/
theorem credentialInvariant_initializeGeminiClient (st : PluginState) :
    credentialInvariant (initializeGeminiClient st) := by
  intro hsome
  obtain ⟨hs, -, hcc, -⟩ := initializeGeminiClient_fields st
  rw [hs]
  by_cases h : st.settings.apiKey ≠ ""
  · exact h
  · rw [hcc] at hsome; simp [h] at hsome

/-- Every modelled plugin operation preserves the credential/session
invariant. -/
theorem applyOp_preserves_credentialInvariant (st : PluginState) (op : PluginOp)
    (h : credentialInvariant st) : credentialInvariant (applyOp st op) := by
  cases op with
  | setApiKey v => exact credentialInvariant_initializeGeminiClient _
  | setCompanionName v => exact credentialInvariant_initializeGeminiClient _
  | setGreetingEnabled v => exact credentialInvariant_initializeGeminiClient _
  | setRandomCommentProbability q => exact credentialInvariant_initializeGeminiClient _
  | chat m o =>
    intro hsome
    obtain ⟨hc, hs⟩ := sendChatMessage_preserves st m o
    have hsome' : (sendChatMessage st m o).2.companionChat.isSome = true := hsome
    rw [hc] at hsome'
    show (sendChatMessage st m o).2.settings.apiKey ≠ ""
    rw [hs]
    exact h hsome'
  | editorChange ed draw s =>
    intro hsome
    exact h hsome

/-- C5 (amended): after any credential write, a session exists exactly when
the new credential is non-empty; changing to a non-empty credential
replaces the session freshly and empties `chatHistory`; clearing the
credential discards the session (no fresh one is created) but leaves the
stored `chatHistory` untouched until a later successful initialization.
Every modelled operation preserves the "session only with credential"
invariant, so it holds in every reachable state. -/
theorem C5_amended_session_credential_coupling (st : PluginState) (v : String) :
    ((setApiKey st v).companionChat.isSome = true ↔ v ≠ "") ∧
    (v ≠ "" →
      (setApiKey st v).ai = some v ∧
      (setApiKey st v).companionChat = some (freshChat st.settings.companionName) ∧
      (setApiKey st v).chatHistory = []) ∧
    (v = "" →
      (setApiKey st v).ai = none ∧
      (setApiKey st v).companionChat = none ∧
      (setApiKey st v).chatHistory = st.chatHistory) ∧
    (∀ (st' : PluginState) (op : PluginOp),
      credentialInvariant st' → credentialInvariant (applyOp st' op)) := by
  obtain ⟨hs, hai, hcc, hch, -, -⟩ :=
    initializeGeminiClient_fields { st with settings := { st.settings with apiKey := v } }
  have he : setApiKey st v =
      initializeGeminiClient { st with settings := { st.settings with apiKey := v } } := rfl
  rw [he]
  refine ⟨?_, ?_, ?_, applyOp_preserves_credentialInvariant⟩
  · rw [hcc]; by_cases h : v ≠ "" <;> simp [h]
  · intro h; rw [hai, hcc, hch]; simp [h]
  · intro h; rw [hai, hcc, hch]; simp [h]

/-- Witness for the amended C5: a credential change wipes and recreates;
a credential clear nulls the session but keeps the history. -/
theorem C5_amended_session_credential_coupling_witness :
    ((setApiKey chattedPlugin "newkey").ai = some "newkey" ∧
      (setApiKey chattedPlugin "newkey").companionChat =
        some (freshChat chattedPlugin.settings.companionName) ∧
      (setApiKey chattedPlugin "newkey").chatHistory = []) ∧
    ((setApiKey chattedPlugin "").ai = none ∧
      (setApiKey chattedPlugin "").companionChat = none ∧
      (setApiKey chattedPlugin "").chatHistory = chattedPlugin.chatHistory) :=
  ⟨(C5_amended_session_credential_coupling chattedPlugin "newkey").2.1 (by decide),
   (C5_amended_session_credential_coupling chattedPlugin "").2.2.1 rfl⟩

/-- C7 (confirmed): the probability test is strictly less-than. A draw that
is not strictly below the configured probability — in particular a draw
equal to it — never schedules a comment; and whenever every other gate
condition holds, a draw strictly below the probability schedules the
extracted context. -/
theorem C7_probability_gate_strict (st : PluginState) (ed : EditorView) (draw : ℚ)
    (statusText : String) :
    (¬ draw < st.settings.randomCommentProbability →
      (handleEditorChange st ed draw statusText).2 = none) ∧
    (isEnterPress st ed.cursorLine (jsLength ed.content) = true →
      st.ai.isSome = true →
      draw < st.settings.randomCommentProbability →
      extractContext ed.content ed.cursorLine ≠ "" →
      statusBlocksTrigger statusText = false →
      (handleEditorChange st ed draw statusText).2 =
        some (extractContext ed.content ed.cursorLine)) := by
  constructor
  · intro hge
    show scheduledComment st ed draw statusText = none
    unfold scheduledComment
    split
    · rfl
    · split
      · rename_i hc
        simp only [Bool.and_eq_true, decide_eq_true_eq] at hc
        exact absurd hc.2 hge
      · rfl
  · intro hen hai hlt hctx hstat
    simp only [statusBlocksTrigger, Bool.or_eq_false_iff] at hstat
    show scheduledComment st ed draw statusText = some _
    unfold scheduledComment
    simp [hen, hai, hlt, hctx, hstat.1, hstat.2]

/-- A configured plugin whose comment probability sits at the lower bound
0.01. -/
def boundaryPlugin : PluginState :=
  { readyPlugin with settings := { readyPlugin.settings with randomCommentProbability := 1/100 } }

/-- Witness for C7 at the boundary of the spec: probability 0.01 and a draw
of exactly 0.01 schedules nothing, for an input that passes every other
gate. -/
theorem C7_probability_gate_strict_witness :
    (handleEditorChange boundaryPlugin ⟨"a\nb", 1⟩ (1/100) "阿那克萨戈拉斯: 正在待命中...").2 =
      none :=
  (C7_probability_gate_strict boundaryPlugin ⟨"a\nb", 1⟩ (1/100)
    "阿那克萨戈拉斯: 正在待命中...").1 (by norm_num [boundaryPlugin, readyPlugin])

/-- A contiguous slice of a list is the sequence of lookups over the index
range: `(l.drop a).take n` enumerates the elements at indices
`a, a+1, …, a+n-1` that exist. -/
theorem drop_take_eq_range'_filterMap {α : Type} (l : List α) :
    ∀ (n a : Nat), (l.drop a).take n = (List.range' a n).filterMap (fun i => l[i]?)
  | 0, a => by simp
  | n + 1, a => by
    rw [List.range'_succ, List.filterMap_cons]
    by_cases h : a < l.length
    · rw [List.drop_eq_getElem_cons h, List.take_succ_cons,
        drop_take_eq_range'_filterMap l n (a + 1)]
      simp [List.getElem?_eq_getElem h]
    · have hle : l.length ≤ a := Nat.le_of_not_lt h
      have h0 : l[a]? = none := List.getElem?_eq_none hle
      have h1 : l.drop a = [] := List.drop_eq_nil_iff.mpr hle
      simp only [h0, h1, List.take_nil]
      symm
      rw [List.filterMap_eq_nil_iff]
      intro i hi
      rcases List.mem_range'.mp hi with ⟨j, hj, rfl⟩
      exact List.getElem?_eq_none (by omega)

/-- The context window as the spec words it: the lines with indices
`max(0, k-4)` through `k` of the split document, joined with newlines and
trimmed. -/
def specContextWindow (content : String) (k : Nat) : String :=
  let lines := jsSplitLines content
  let lo := (max 0 ((k : ℤ) - 4)).toNat
  jsTrim (jsJoinNl ((List.range' lo (k + 1 - lo)).filterMap (fun i => lines[i]?)))

/-- C8 (confirmed): the context extracted for an ambient comment is the up
to 5 preceding lines ending at the cursor line inclusive — exactly the
lines with indices `max(0, k-4)` through `k`, clipped at the document start
— joined with newlines and trimmed. -/
theorem C8_context_window_eq_spec (content : String) (k : Nat) :
    extractContext content k = specContextWindow content k := by
  unfold extractContext specContextWindow
  dsimp only
  rw [drop_take_eq_range'_filterMap]

end AICompanion
